import Mathlib

/-!
Shallow embedding of `src/run_autogen_review.py` (the AutoGen CI code-review
orchestrator).  External collaborators (file system, subprocesses, the two
LLM-backed agent chats) are modelled as oracle functions packaged in an
environment record; the orchestrator itself is translated as a pure function
over those oracles, with an explicit trace of the external calls it makes.
-/

set_option maxRecDepth 2000

namespace AutogenReview

/-- File size limit (1MB), `MAX_FILE_SIZE = 1024 * 1024`. -/
def MAX_FILE_SIZE : Nat := 1024 * 1024

/-- Result of `os.path.getsize`: a size, or an `OSError`. -/
inductive SizeResult
  | ok (n : Nat)
  | oserror
deriving DecidableEq

/-- Result of `open(...).read()`: the content, or a raised exception. -/
inductive ReadResult
  | ok (content : String)
  | ioerror
deriving DecidableEq

/-- Result of one `initiate_chat`/`last_message` exchange: the reply content,
or a raised exception (caught by the orchestrator's `except Exception`). -/
inductive ChatResult
  | ok (msg : String)
  | exn
deriving DecidableEq

/-- Result of `subprocess.run`: completion with captured stdout, a
`TimeoutExpired`, a `FileNotFoundError` (with its rendered message), or any
other exception (with its rendered message). -/
inductive SubprocResult
  | completed (stdout : String)
  | timeoutExpired
  | fileNotFound (msg : String)
  | otherError (msg : String)
deriving DecidableEq

/-- One external analyzer invocation: command line and timeout in seconds. -/
structure Invocation where
  cmd : List String
  timeout : Nat
deriving DecidableEq

/-- `subprocess.run(["flake8", file_path, "--max-line-length=100"], timeout=30)`. -/
def flake8Invocation (file_path : String) : Invocation :=
  ⟨["flake8", file_path, "--max-line-length=100"], 30⟩

/-- `subprocess.run(["npx", "eslint", file_path, "--no-error-on-unmatched-pattern", "--format=compact"], timeout=60)`. -/
def eslintInvocation (file_path : String) : Invocation :=
  ⟨["npx", "eslint", file_path, "--no-error-on-unmatched-pattern", "--format=compact"], 60⟩

/-- `subprocess.run(["npx", "stylelint", file_path, "--allow-empty-input"], timeout=60)`. -/
def stylelintInvocation (file_path : String) : Invocation :=
  ⟨["npx", "stylelint", file_path, "--allow-empty-input"], 60⟩

/-- `subprocess.run(["npx", "html-validate", file_path], timeout=60)`. -/
def htmlValidateInvocation (file_path : String) : Invocation :=
  ⟨["npx", "html-validate", file_path], 60⟩

/-- `result.stdout or 'No issues found.'` — Python `or` falls back on an
empty (falsy) string. -/
def stdoutOrDefault (stdout : String) : String :=
  if stdout.isEmpty then "No issues found." else stdout

/-- Python `s.endswith(suffix)`, computed structurally on the char list. -/
def pyEndsWith (s suffix : String) : Bool :=
  suffix.toList.isSuffixOf s.toList

/-- `run_flake8(file_path)`, with the ambient `subprocess.run` passed as an
oracle.  Returns the result string together with the list of subprocess
invocations made (empty on the extension-mismatch early return). -/
def run_flake8 (subproc : Invocation → SubprocResult) (file_path : String) :
    String × List Invocation :=
  if ¬ pyEndsWith file_path ".py" then
    ("Error: run_flake8 can only be used on .py files.", [])
  else
    let inv := flake8Invocation file_path
    match subproc inv with
    | .completed stdout => ("Flake8 (Python) findings:\n" ++ stdoutOrDefault stdout, [inv])
    | .timeoutExpired => ("Error: Flake8 timed out.", [inv])
    | .fileNotFound _ => ("Error: Flake8 not installed.", [inv])
    | .otherError msg => ("Error running flake8: " ++ msg, [inv])

/-- `file_path.endswith((".js", ".jsx", ".ts", ".tsx"))`. -/
def eslintExtOk (file_path : String) : Bool :=
  pyEndsWith file_path ".js" || pyEndsWith file_path ".jsx" ||
    pyEndsWith file_path ".ts" || pyEndsWith file_path ".tsx"

/-- `run_eslint(file_path)`.  Note: this runner has no dedicated
`FileNotFoundError` branch; that exception is caught by the generic
`except Exception` clause. -/
def run_eslint (subproc : Invocation → SubprocResult) (file_path : String) :
    String × List Invocation :=
  if ¬ eslintExtOk file_path then
    ("Error: run_eslint is for .js, .jsx, .ts, or .tsx files.", [])
  else
    let inv := eslintInvocation file_path
    match subproc inv with
    | .completed stdout => ("ESLint (JS/TS/React) findings:\n" ++ stdoutOrDefault stdout, [inv])
    | .timeoutExpired => ("Error: ESLint timed out.", [inv])
    | .fileNotFound msg => ("Error running eslint: " ++ msg, [inv])
    | .otherError msg => ("Error running eslint: " ++ msg, [inv])

/-- `file_path.endswith((".css", ".scss"))`. -/
def stylelintExtOk (file_path : String) : Bool :=
  pyEndsWith file_path ".css" || pyEndsWith file_path ".scss"

/-- `run_stylelint(file_path)`. -/
def run_stylelint (subproc : Invocation → SubprocResult) (file_path : String) :
    String × List Invocation :=
  if ¬ stylelintExtOk file_path then
    ("Error: run_stylelint is for .css or .scss files.", [])
  else
    let inv := stylelintInvocation file_path
    match subproc inv with
    | .completed stdout => ("Stylelint (CSS/SCSS) findings:\n" ++ stdoutOrDefault stdout, [inv])
    | .timeoutExpired => ("Error: Stylelint timed out.", [inv])
    | .fileNotFound msg => ("Error running stylelint: " ++ msg, [inv])
    | .otherError msg => ("Error running stylelint: " ++ msg, [inv])

/-- `run_html_validate(file_path)`. -/
def run_html_validate (subproc : Invocation → SubprocResult) (file_path : String) :
    String × List Invocation :=
  if ¬ pyEndsWith file_path ".html" then
    ("Error: run_html_validate is for .html files.", [])
  else
    let inv := htmlValidateInvocation file_path
    match subproc inv with
    | .completed stdout => ("html-validate (HTML) findings:\n" ++ stdoutOrDefault stdout, [inv])
    | .timeoutExpired => ("Error: HTML validation timed out.", [inv])
    | .fileNotFound msg => ("Error running html-validate: " ++ msg, [inv])
    | .otherError msg => ("Error running html-validate: " ++ msg, [inv])

/-- The final path component: everything after the last `/`. -/
def basenameChars (p : List Char) : List Char :=
  (p.reverse.takeWhile (fun c => c ≠ '/')).reverse

/-- The suffix of `l` starting at its last `.` (inclusive); `[]` if no dot. -/
def suffixFromLastDot : List Char → List Char
  | [] => []
  | c :: cs =>
    if cs.contains '.' then suffixFromLastDot cs
    else if c = '.' then c :: cs
    else []

/-- `os.path.splitext(p)[1]` (posix): the extension starts at the last dot of
the final path component, except that dots leading that component are part of
the root (so a bare dotfile such as `.bashrc` has extension `""`). -/
def splitextExt (p : String) : String :=
  String.mk (suffixFromLastDot ((basenameChars p.toList).dropWhile (fun c => c = '.')))

/-- Observable external calls made by the batch loop: the lint-dispatch chat
(`initiate_chat` with `code_checker`), the review chat (`initiate_chat` with
`code_reviewer`), and the rate-limit `time.sleep(5)`. -/
inductive Event
  | dispatchCall (path : String)
  | reviewCall (path : String)
  | sleep
deriving DecidableEq

/-- The external collaborators seen by `main`'s batch loop, as oracles. -/
structure Env where
  getsize : String → SizeResult
  readFile : String → ReadResult
  dispatchChat : String → ChatResult
  reviewChat : String → ChatResult

/-- `language_map` from `main`. -/
def language_map : List (String × String) :=
  [(".py", "Python"), (".js", "JavaScript"), (".jsx", "React (JSX)"),
   (".ts", "TypeScript"), (".tsx", "React (TSX)"), (".css", "CSS"),
   (".scss", "SCSS"), (".html", "HTML")]

/-- A single-quote character (the string delimiter used in the lint task). -/
def squote : String := String.singleton (Char.ofNat 39)

/-- The dispatch-turn task message: `f"Run the correct linter for: '{file_path}'"`. -/
def lintTaskMsg (file_path : String) : String :=
  "Run the correct linter for: " ++ squote ++ file_path ++ squote

/-- `code_content[:5000] if len(code_content) > 5000 else code_content`. -/
def truncatedFor (code_content : String) : String :=
  if code_content.length > 5000 then String.mk (code_content.toList.take 5000)
  else code_content

/-- The review-turn task message built in `main`. -/
def reviewTaskMsg (language code_content : String) : String :=
  "Review this " ++ language ++ " code for optimizations and standards:\n\n```" ++
    language ++ "\n" ++ truncatedFor code_content ++ "\n```"

/-- Python `not code_content.strip()`: true iff every character is whitespace
(`str.strip()` with no argument removes whitespace from both ends). -/
def strippedEmpty (code_content : String) : Bool :=
  code_content.toList.all (fun c => c.isWhitespace)

/-- `f"--- Report for {file_path} ---\n\n"`. -/
def hdrFor (file_path : String) : String :=
  "--- Report for " ++ file_path ++ " ---\n\n"

/-- `f"--- End of Report for {file_path} ---\n\n"`. -/
def ftrFor (file_path : String) : String :=
  "--- End of Report for " ++ file_path ++ " ---\n\n"

/-- What one loop iteration contributes after the section header: the text
appended to `full_report_text`, the external calls made, and whether the
iteration ran to the end of the loop body (`processed_count += 1` reached)
rather than hitting a `continue`. -/
structure BodyResult where
  text : String
  events : List Event
  processed : Bool
deriving DecidableEq

/-- The read gate and the two agent tasks (lines 370–407 of the source):
read the file (`continue` with an error line on failure), skip when the
content is empty/whitespace-only, otherwise run the lint-dispatch chat and —
only for extensions in `language_map` — the review chat, then the footer. -/
def readAndReview (env : Env) (file_path : String) : BodyResult :=
  let ext := splitextExt file_path
  let language := (language_map.lookup ext).getD ("Unknown (" ++ ext ++ ")")
  match env.readFile file_path with
  | .ioerror => ⟨"Error: Could not read file.\n\n", [], false⟩
  | .ok code_content =>
    if strippedEmpty code_content then ⟨"File is empty. Skipped.\n\n", [], false⟩
    else
      let lintPart :=
        match env.dispatchChat (lintTaskMsg file_path) with
        | .ok linter_report =>
          "**Linter Check (" ++ language ++ "):**\n" ++ linter_report ++ "\n\n"
        | .exn => "**Linter Check:** Error occurred\n\n"
      if (language_map.lookup ext).isSome then
        let reviewPart :=
          match env.reviewChat (reviewTaskMsg language code_content) with
          | .ok review_report => "**Review:**\n" ++ review_report ++ "\n\n"
          | .exn => "**Review:** Error occurred\n\n"
        ⟨(lintPart ++ reviewPart) ++ ftrFor file_path,
         [Event.dispatchCall file_path, Event.reviewCall file_path], true⟩
      else
        ⟨lintPart ++ ftrFor file_path, [Event.dispatchCall file_path], true⟩

/-- Everything one loop iteration appends after the header: first the size
gate (`os.path.getsize > MAX_FILE_SIZE` skips; an `OSError` there is
swallowed by `pass`), then `readAndReview`. -/
def fileBody (env : Env) (file_path : String) : BodyResult :=
  match env.getsize file_path with
  | .ok n =>
    if n > MAX_FILE_SIZE then ⟨"File too large. Skipped.\n\n", [], false⟩
    else readAndReview env file_path
  | .oserror => readAndReview env file_path

/-- One full loop iteration for `file_path`: the complete text appended to
`full_report_text` (header first), the calls made, and the processed flag. -/
def stepFile (env : Env) (file_path : String) : BodyResult :=
  ⟨hdrFor file_path ++ (fileBody env file_path).text,
   (fileBody env file_path).events, (fileBody env file_path).processed⟩

/-- The batch loop of `main` (lines 354–413): per input file, the appended
report text and the events of that iteration, including the rate-limit
`time.sleep(5)` which fires when the iteration was fully processed,
`processed_count % 2 == 0`, and `processed_count < len(changed_files)`
(`total`). -/
def runLoop (env : Env) (total : Nat) : List String → Nat → List (String × List Event)
  | [], _ => []
  | file_path :: rest, processed_count =>
    let st := stepFile env file_path
    let count2 := if st.processed then processed_count + 1 else processed_count
    let evs := st.events ++
      (if st.processed = true ∧ count2 % 2 = 0 ∧ count2 < total then [Event.sleep] else [])
    (st.text, evs) :: runLoop env total rest count2

/-- The required configuration values read by `validate_environment`, plus
the two identifiers used in the report header.  `none` models an unset
environment variable; Python treats both `None` and `""` as missing. -/
structure Config where
  openai_api_key : Option String
  github_token : Option String
  github_repository : Option String
  github_sha : Option String
  github_actor : Option String

/-- Python truthiness of an `os.getenv` result. -/
def truthy (v : Option String) : Bool :=
  match v with
  | none => false
  | some s => !s.isEmpty

/-- `validate_environment()`: true iff none of the five required variables is
missing (falsy). -/
def validate_environment (cfg : Config) : Bool :=
  truthy cfg.openai_api_key && truthy cfg.github_token &&
    truthy cfg.github_repository && truthy cfg.github_sha && truthy cfg.github_actor

/-- Outcome of `main`: `sys.exit(1)` on failed validation, `sys.exit(0)` on an
empty changed-file list, or normal completion with the assembled report text
and the trace of external calls (after which the PDF and email collaborators
are invoked). -/
inductive MainResult
  | exitConfig
  | exitNoFiles
  | finished (report : String) (trace : List Event)
deriving DecidableEq

/-- Process exit code of a `MainResult`. -/
def exitCodeOf : MainResult → Nat
  | .exitConfig => 1
  | .exitNoFiles => 0
  | .finished _ _ => 0

/-- The assembled report, when one was produced. -/
def reportOf : MainResult → Option String
  | .finished r _ => some r
  | _ => none

/-- The external calls made by the batch loop. -/
def traceOf : MainResult → List Event
  | .finished _ t => t
  | _ => []

/-- Whether `main` reached `create_pdf`/`send_email` (the notification path). -/
def notificationReached : MainResult → Bool
  | .finished _ _ => true
  | _ => false

/-- The report header: commit short-hash and triggering actor. -/
def runHeader (cfg : Config) : String :=
  "AutoGen Code Review for commit " ++ String.mk ((cfg.github_sha.getD "").toList.take 7) ++
    "\nTriggered by: " ++ cfg.github_actor.getD "" ++ "\n\n"

/-- `main()`, with the changed-file list (the result of `get_changed_files`)
and the collaborators as inputs: validate the environment (exit 1 on
failure), exit 0 when no files changed, otherwise run the batch loop and
assemble the report. -/
def main (cfg : Config) (changed_files : List String) (env : Env) : MainResult :=
  if validate_environment cfg = false then .exitConfig
  else if changed_files.isEmpty then .exitNoFiles
  else
    let steps := runLoop env changed_files.length changed_files 0
    .finished (runHeader cfg ++ String.join (steps.map Prod.fst))
      (steps.map Prod.snd).flatten

/-! ### Helper lemmas about the batch loop -/

/-- The per-file report chunks are exactly a map over the input list: one
chunk per file, in input order, and the chunk text does not depend on the
running `processed_count`. -/
theorem runLoop_map_fst (env : Env) (total : Nat) :
    ∀ (files : List String) (count : Nat),
      (runLoop env total files count).map Prod.fst =
        files.map (fun p => (stepFile env p).text) := by
  intro files
  induction files with
  | nil => intro count; rfl
  | cons p rest ih =>
    intro count
    simp only [runLoop, List.map_cons, List.map, ih]

/-- The loop emits one entry per input file. -/
theorem runLoop_length (env : Env) (total : Nat) :
    ∀ (files : List String) (count : Nat),
      (runLoop env total files count).length = files.length := by
  intro files
  induction files with
  | nil => intro count; rfl
  | cons p rest ih =>
    intro count
    simp only [runLoop, List.length_cons, ih]

/-- A single iteration makes only dispatch/review calls (never a sleep). -/
theorem readAndReview_events (env : Env) (p : String) :
    (readAndReview env p).events = [] ∨
      (readAndReview env p).events = [Event.dispatchCall p] ∨
      (readAndReview env p).events = [Event.dispatchCall p, Event.reviewCall p] := by
  unfold readAndReview
  cases env.readFile p with
  | ioerror => left; rfl
  | ok c =>
    by_cases hs : strippedEmpty c = true
    · simp [hs]
    · simp only [Bool.not_eq_true] at hs
      simp only [hs, Bool.false_eq_true, if_false]
      by_cases hl : (language_map.lookup (splitextExt p)).isSome = true
      · simp [hl]
      · simp only [Bool.not_eq_true] at hl
        simp [hl]

/-- The possible event lists of a full iteration. -/
theorem stepFile_events (env : Env) (p : String) :
    (stepFile env p).events = [] ∨
      (stepFile env p).events = [Event.dispatchCall p] ∨
      (stepFile env p).events = [Event.dispatchCall p, Event.reviewCall p] := by
  show (fileBody env p).events = _ ∨ (fileBody env p).events = _ ∨ (fileBody env p).events = _
  unfold fileBody
  cases env.getsize p with
  | ok n =>
    by_cases hn : n > MAX_FILE_SIZE
    · simp [hn]
    · simp only [hn, if_false]
      exact readAndReview_events env p
  | oserror => exact readAndReview_events env p

/-- `time.sleep` is never among the calls of the iteration body itself. -/
theorem stepFile_no_sleep (env : Env) (p : String) :
    Event.sleep ∉ (stepFile env p).events := by
  rcases stepFile_events env p with h | h | h <;> simp [h]

/-- When every file of the batch passes the gates, the sleep event of the
`i`-th loop entry fires exactly when the running processed count `count + i + 1`
is even and still below `total`. -/
theorem runLoop_sleep_iff (env : Env) (total : Nat) :
    ∀ (files : List String) (count i : Nat),
      (∀ p ∈ files, (stepFile env p).processed = true) → i < files.length →
      (Event.sleep ∈ ((runLoop env total files count).getD i ("", [])).2 ↔
        ((count + i + 1) % 2 = 0 ∧ count + i + 1 < total)) := by
  intro files
  induction files with
  | nil => intro count i _ hi; exact absurd hi (Nat.not_lt_zero i)
  | cons p rest ih =>
    intro count i hall hi
    have hp : (stepFile env p).processed = true := hall p (List.mem_cons_self p rest)
    cases i with
    | zero =>
      simp only [runLoop, List.getD_cons_zero, hp, if_true, Nat.add_zero, true_and]
      constructor
      · intro hmem
        rcases List.mem_append.mp hmem with h | h
        · exact absurd h (stepFile_no_sleep env p)
        · by_cases hg : ((count + 1) % 2 = 0 ∧ count + 1 < total)
          · exact hg
          · rw [if_neg hg] at h
            exact absurd h (List.not_mem_nil _)
      · intro hg
        refine List.mem_append.mpr (Or.inr ?_)
        rw [if_pos hg]
        exact List.mem_singleton.mpr rfl
    | succ j =>
      have hrest : ∀ q ∈ rest, (stepFile env q).processed = true :=
        fun q hq => hall q (List.mem_cons_of_mem p hq)
      have hj : j < rest.length := Nat.lt_of_succ_lt_succ (by simpa using hi)
      have := ih (count + 1) j hrest hj
      simp only [runLoop, List.getD_cons_succ, hp, if_true]
      rw [this]
      constructor
      · rintro ⟨h1, h2⟩
        refine ⟨?_, ?_⟩ <;> omega
      · rintro ⟨h1, h2⟩
        refine ⟨?_, ?_⟩ <;> omega

/-- A skipped iteration leaves the processed count unchanged, emits no sleep,
and the loop continues with the remaining files. -/
theorem runLoop_cons_skipped (env : Env) (p : String)
    (hp : (stepFile env p).processed = false) :
    ∀ (rest : List String) (count total : Nat),
      runLoop env total (p :: rest) count =
        ((stepFile env p).text, (stepFile env p).events) :: runLoop env total rest count := by
  intro rest count total
  simp only [runLoop, hp, Bool.false_eq_true, if_false, false_and, List.append_nil]

/-- The size gate lets the file through: either `os.path.getsize` raised an
`OSError` (swallowed by `pass`) or the size is within `MAX_FILE_SIZE`. -/
def sizeGateOpen (env : Env) (p : String) : Prop :=
  env.getsize p = SizeResult.oserror ∨
    ∃ n, env.getsize p = SizeResult.ok n ∧ n ≤ MAX_FILE_SIZE

/-- An oversized file is recorded as too large, with no calls. -/
theorem fileBody_too_large (env : Env) (p : String) (n : Nat)
    (hn : env.getsize p = SizeResult.ok n) (h : MAX_FILE_SIZE < n) :
    fileBody env p = ⟨"File too large. Skipped.\n\n", [], false⟩ := by
  unfold fileBody
  rw [hn]
  simp only [gt_iff_lt, h, if_true]

/-- When the size gate lets the file through, the iteration body is the
read-and-review phase. -/
theorem fileBody_gate_open (env : Env) (p : String) (h : sizeGateOpen env p) :
    fileBody env p = readAndReview env p := by
  unfold fileBody
  rcases h with h | ⟨n, hn, hle⟩
  · rw [h]
  · rw [hn]
    simp only [gt_iff_lt, Nat.not_lt.mpr hle, if_false]

/-- An unreadable file is recorded as a read error, with no calls. -/
theorem readAndReview_ioerror (env : Env) (p : String)
    (h : env.readFile p = ReadResult.ioerror) :
    readAndReview env p = ⟨"Error: Could not read file.\n\n", [], false⟩ := by
  unfold readAndReview
  rw [h]

/-- An empty or whitespace-only file is recorded as empty, with no calls. -/
theorem readAndReview_empty (env : Env) (p : String) (c : String)
    (hr : env.readFile p = ReadResult.ok c) (hs : strippedEmpty c = true) :
    readAndReview env p = ⟨"File is empty. Skipped.\n\n", [], false⟩ := by
  unfold readAndReview
  rw [hr]
  simp only [hs, if_true]

/-- A readable, non-empty file is fully processed; its calls are the dispatch
chat, plus the review chat exactly when the `splitext` extension is a key of
`language_map`. -/
theorem readAndReview_processed (env : Env) (p : String) (c : String)
    (hr : env.readFile p = ReadResult.ok c) (hs : strippedEmpty c = false) :
    (readAndReview env p).processed = true ∧
      (readAndReview env p).events =
        (if (language_map.lookup (splitextExt p)).isSome = true
         then [Event.dispatchCall p, Event.reviewCall p]
         else [Event.dispatchCall p]) ∧
      (∃ mid, (readAndReview env p).text = mid ++ ftrFor p) := by
  unfold readAndReview
  rw [hr]
  simp only [hs, Bool.false_eq_true, if_false]
  by_cases hl : (language_map.lookup (splitextExt p)).isSome = true
  · simp only [hl, if_true]
    exact ⟨by trivial, by trivial, _, rfl⟩
  · simp only [Bool.not_eq_true] at hl
    simp only [hl, Bool.false_eq_true, if_false]
    exact ⟨by trivial, by trivial, _, rfl⟩

/-- A non-processed iteration recorded one of the three gate reasons. -/
theorem fileBody_not_processed (env : Env) (p : String)
    (h : (fileBody env p).processed = false) :
    fileBody env p = ⟨"File too large. Skipped.\n\n", [], false⟩ ∨
      fileBody env p = ⟨"File is empty. Skipped.\n\n", [], false⟩ ∨
      fileBody env p = ⟨"Error: Could not read file.\n\n", [], false⟩ := by
  by_cases hopen : sizeGateOpen env p
  · rw [fileBody_gate_open env p hopen] at h ⊢
    cases hread : env.readFile p with
    | ioerror => right; right; exact readAndReview_ioerror env p hread
    | ok c =>
      by_cases hs : strippedEmpty c = true
      · right; left; exact readAndReview_empty env p c hread hs
      · exfalso
        have := (readAndReview_processed env p c hread (by simpa using hs)).1
        rw [this] at h
        simp at h
  · cases hg : env.getsize p with
    | ok n =>
      by_cases hn : MAX_FILE_SIZE < n
      · left; exact fileBody_too_large env p n hg hn
      · exact absurd (Or.inr ⟨n, hg, Nat.not_lt.mp hn⟩) hopen
    | oserror => exact absurd (Or.inl hg) hopen

/-! ### Concrete stub environments for witnesses and counterexamples -/

/-- All files readable (1KB-ish, non-empty) and both chats succeed. -/
def stubEnv : Env :=
  { getsize := fun _ => SizeResult.ok 10
  , readFile := fun _ => ReadResult.ok "x = 1\n"
  , dispatchChat := fun _ => ChatResult.ok "No issues found."
  , reviewChat := fun _ => ChatResult.ok "Looks good." }

/-- Like `stubEnv`, with extensionally equal but syntactically different
collaborator functions. -/
def stubEnvSame : Env :=
  { getsize := fun _ => SizeResult.ok (5 + 5)
  , readFile := fun _ => ReadResult.ok ("x = 1" ++ "\n")
  , dispatchChat := fun _ => ChatResult.ok ("No issues" ++ " found.")
  , reviewChat := fun _ => ChatResult.ok ("Looks" ++ " good.") }

/-- Like `stubEnv` except that `a.py` has whitespace-only content (so the
batch skips it at the emptiness gate). -/
def skipFirstEnv : Env :=
  { getsize := fun _ => SizeResult.ok 10
  , readFile := fun p => if p = "a.py" then ReadResult.ok "   " else ReadResult.ok "x = 1\n"
  , dispatchChat := fun _ => ChatResult.ok "No issues found."
  , reviewChat := fun _ => ChatResult.ok "Looks good." }

/-- Every file reports a size just over the 1MB limit. -/
def oversizeEnv : Env :=
  { getsize := fun _ => SizeResult.ok (1024 * 1024 + 1)
  , readFile := fun _ => ReadResult.ok "x = 1\n"
  , dispatchChat := fun _ => ChatResult.ok "No issues found."
  , reviewChat := fun _ => ChatResult.ok "Looks good." }

/-- A file that disappeared between diffing and reading: `os.path.getsize`
raises `OSError` and the read raises as well. -/
def vanishedEnv : Env :=
  { getsize := fun _ => SizeResult.oserror
  , readFile := fun _ => ReadResult.ioerror
  , dispatchChat := fun _ => ChatResult.ok "No issues found."
  , reviewChat := fun _ => ChatResult.ok "Looks good." }

/-- A subprocess oracle on which every invocation times out. -/
def timeoutSub : Invocation → SubprocResult := fun _ => SubprocResult.timeoutExpired

/-- A subprocess oracle on which every invocation completes with no output. -/
def quietSub : Invocation → SubprocResult := fun _ => SubprocResult.completed ""

/-- A configuration with every required variable missing. -/
def cfgMissing : Config := ⟨none, none, none, none, none⟩

/-- A fully populated configuration. -/
def cfgOk : Config :=
  ⟨some "sk-key", some "gh-token", some "owner/repo", some "abcdef1234567", some "dev"⟩

/-! ### The claims -/

/-- C1: For every input list of changed files, the assembled report contains
exactly one per-file section for each input file — the loop's chunk list is
precisely the input list mapped through the per-file section builder, so the
sections appear in exactly the input order, whatever each file's outcome
(the environment, hence every outcome, is universally quantified), and every
section opens with its own file's header line. -/
theorem report_sections_follow_input_order (env : Env) (files : List String) :
    ((runLoop env files.length files 0).map Prod.fst =
      files.map (fun p => (stepFile env p).text))
    ∧ (∀ p, ∃ rest, (stepFile env p).text = hdrFor p ++ rest)
    ∧ ((runLoop env files.length files 0).length = files.length) :=
  ⟨runLoop_map_fst env files.length files 0,
   fun p => ⟨(fileBody env p).text, rfl⟩,
   runLoop_length env files.length files 0⟩

/-- C3: A file whose determinable size exceeds `MAX_FILE_SIZE` is recorded as
"File too large. Skipped." and a file whose content is empty or
whitespace-only as "File is empty. Skipped."; in both cases the iteration
makes no dispatch-turn or review-turn call (hence no analyzer subprocess,
which only the dispatch turn can trigger), and the loop continues with the
remaining files. -/
theorem gate_skips_record_reason_and_make_no_calls (env : Env) (p : String) :
    (∀ n, env.getsize p = SizeResult.ok n → MAX_FILE_SIZE < n →
      stepFile env p = ⟨hdrFor p ++ "File too large. Skipped.\n\n", [], false⟩)
    ∧ (∀ c, sizeGateOpen env p → env.readFile p = ReadResult.ok c →
        strippedEmpty c = true →
        stepFile env p = ⟨hdrFor p ++ "File is empty. Skipped.\n\n", [], false⟩)
    ∧ ((stepFile env p).processed = false → ∀ rest count total,
        runLoop env total (p :: rest) count =
          ((stepFile env p).text, (stepFile env p).events) :: runLoop env total rest count) := by
  refine ⟨?_, ?_, ?_⟩
  · intro n hn hbig
    show (⟨hdrFor p ++ (fileBody env p).text, (fileBody env p).events,
      (fileBody env p).processed⟩ : BodyResult) = _
    rw [fileBody_too_large env p n hn hbig]
  · intro c hopen hr hs
    show (⟨hdrFor p ++ (fileBody env p).text, (fileBody env p).events,
      (fileBody env p).processed⟩ : BodyResult) = _
    rw [fileBody_gate_open env p hopen, readAndReview_empty env p c hr hs]
  · intro hp rest count total
    exact runLoop_cons_skipped env p hp rest count total

/-- Witness for C3 at concrete inputs: an oversized file and a
whitespace-only file, each recorded with its own reason and no calls. -/
theorem gate_skips_witness :
    stepFile oversizeEnv "big.py" =
      ⟨hdrFor "big.py" ++ "File too large. Skipped.\n\n", [], false⟩
    ∧ stepFile skipFirstEnv "a.py" =
      ⟨hdrFor "a.py" ++ "File is empty. Skipped.\n\n", [], false⟩ :=
  ⟨(gate_skips_record_reason_and_make_no_calls oversizeEnv "big.py").1
     (1024 * 1024 + 1) rfl (by decide),
   (gate_skips_record_reason_and_make_no_calls skipFirstEnv "a.py").2.1
     "   " (Or.inr ⟨10, rfl, by decide⟩) rfl (by decide)⟩

/-- C4: A file that cannot be read — including one that disappeared between
diffing and reading, where the size check's `OSError` is swallowed by `pass`
and the failure surfaces at the read step — gets the read-error line in its
section, makes no calls, and the loop continues with the remaining files
(the model is a total function: nothing escapes the loop). -/
theorem read_failure_recorded_and_batch_continues (env : Env) (p : String)
    (hopen : sizeGateOpen env p) (hread : env.readFile p = ReadResult.ioerror) :
    stepFile env p = ⟨hdrFor p ++ "Error: Could not read file.\n\n", [], false⟩
    ∧ (∀ rest count total,
        runLoop env total (p :: rest) count =
          ((stepFile env p).text, (stepFile env p).events) :: runLoop env total rest count) := by
  have hstep : stepFile env p =
      ⟨hdrFor p ++ "Error: Could not read file.\n\n", [], false⟩ := by
    show (⟨hdrFor p ++ (fileBody env p).text, (fileBody env p).events,
      (fileBody env p).processed⟩ : BodyResult) = _
    rw [fileBody_gate_open env p hopen, readAndReview_ioerror env p hread]
  refine ⟨hstep, fun rest count total => runLoop_cons_skipped env p ?_ rest count total⟩
  rw [hstep]

/-- Witness for C4: a vanished file (size probe raises `OSError`, read
raises) is recorded as a read error and the loop moves on. -/
theorem read_failure_witness :
    stepFile vanishedEnv "gone.py" =
      ⟨hdrFor "gone.py" ++ "Error: Could not read file.\n\n", [], false⟩
    ∧ runLoop vanishedEnv 2 ["gone.py", "b.py"] 0 =
        ((stepFile vanishedEnv "gone.py").text, (stepFile vanishedEnv "gone.py").events) ::
          runLoop vanishedEnv 2 ["b.py"] 0 :=
  ⟨(read_failure_recorded_and_batch_continues vanishedEnv "gone.py" (Or.inl rfl) rfl).1,
   (read_failure_recorded_and_batch_continues vanishedEnv "gone.py" (Or.inl rfl) rfl).2
     ["b.py"] 0 2⟩

/-- C10: A gated (skipped or unreadable) file's section is exactly the
header plus the single reason line — the `--- End of Report ---` footer is
never appended — whereas a fully processed file's section is the header,
some middle text, and the footer. -/
theorem section_footer_only_for_processed_files (env : Env) (p : String) :
    ((stepFile env p).processed = false →
      ∃ reason, (reason = "File too large. Skipped.\n\n" ∨
          reason = "File is empty. Skipped.\n\n" ∨
          reason = "Error: Could not read file.\n\n")
        ∧ (stepFile env p).text = hdrFor p ++ reason)
    ∧ ((stepFile env p).processed = true →
      ∃ mid, (stepFile env p).text = hdrFor p ++ (mid ++ ftrFor p)) := by
  constructor
  · intro hp
    have hp' : (fileBody env p).processed = false := hp
    rcases fileBody_not_processed env p hp' with h | h | h
    · exact ⟨"File too large. Skipped.\n\n", Or.inl rfl,
        by show hdrFor p ++ (fileBody env p).text = _; rw [h]⟩
    · exact ⟨"File is empty. Skipped.\n\n", Or.inr (Or.inl rfl),
        by show hdrFor p ++ (fileBody env p).text = _; rw [h]⟩
    · exact ⟨"Error: Could not read file.\n\n", Or.inr (Or.inr rfl),
        by show hdrFor p ++ (fileBody env p).text = _; rw [h]⟩
  · intro hp
    have hp' : (fileBody env p).processed = true := hp
    by_cases hopen : sizeGateOpen env p
    · rw [fileBody_gate_open env p hopen] at hp'
      cases hread : env.readFile p with
      | ioerror =>
        rw [readAndReview_ioerror env p hread] at hp'
        exact absurd hp' (by decide)
      | ok c =>
        by_cases hs : strippedEmpty c = true
        · rw [readAndReview_empty env p c hread hs] at hp'
          exact absurd hp' (by decide)
        · obtain ⟨-, -, mid, hmid⟩ :=
            readAndReview_processed env p c hread (by simpa using hs)
          refine ⟨mid, ?_⟩
          show hdrFor p ++ (fileBody env p).text = _
          rw [fileBody_gate_open env p hopen, hmid]
    · exfalso
      cases hg : env.getsize p with
      | ok n =>
        by_cases hn : MAX_FILE_SIZE < n
        · rw [show (fileBody env p) = _ from fileBody_too_large env p n hg hn] at hp'
          exact absurd hp' (by decide)
        · exact hopen (Or.inr ⟨n, hg, Nat.not_lt.mp hn⟩)
      | oserror => exact hopen (Or.inl hg)

/-- Witness for C10: a whitespace-only file's section is header plus reason
only; a fully processed file's section carries the footer. -/
theorem section_footer_witness :
    (∃ reason, (reason = "File too large. Skipped.\n\n" ∨
        reason = "File is empty. Skipped.\n\n" ∨
        reason = "Error: Could not read file.\n\n")
      ∧ (stepFile skipFirstEnv "a.py").text = hdrFor "a.py" ++ reason)
    ∧ (∃ mid, (stepFile stubEnv "a.py").text = hdrFor "a.py" ++ (mid ++ ftrFor "a.py")) :=
  ⟨(section_footer_only_for_processed_files skipFirstEnv "a.py").1 (by decide),
   (section_footer_only_for_processed_files stubEnv "a.py").2 (by decide)⟩

/-- C2 counterexample: the guard `processed_count < len(changed_files)`
compares the count of *fully processed* files with the *total* input count,
so when a file is skipped the delay can fire after the last file.  Concretely,
for the batch `["a.py", "b.py", "c.py"]` where `a.py` is whitespace-only
(skipped) and the other two are processed, the third — last — file's loop
iteration ends with the rate-limit sleep, refuting the claim that the delay
is never inserted after the last file when some files were skipped. -/
theorem rate_limit_delay_after_last_file_cex :
    (stepFile skipFirstEnv "a.py").processed = false
    ∧ (runLoop skipFirstEnv 3 ["a.py", "b.py", "c.py"] 0).length = 3
    ∧ Event.sleep ∈
        ((runLoop skipFirstEnv 3 ["a.py", "b.py", "c.py"] 0).getD 2 ("", [])).2 := by
  refine ⟨by decide, by decide, by decide⟩

/-- C2 (amended): the delay fires for the `i`-th file exactly when that file
was fully processed and the running processed count is even and still
strictly below the total input count.  In particular, when no file of the
batch is skipped, the delay comes exactly after every 2 files and never after
the last one; when files are skipped it can fire after the last file (see the
counterexample). -/
theorem rate_limit_delay_every_two_processed_files (env : Env) (files : List String)
    (hall : ∀ p ∈ files, (stepFile env p).processed = true) :
    (∀ i, i < files.length →
      (Event.sleep ∈ ((runLoop env files.length files 0).getD i ("", [])).2 ↔
        ((i + 1) % 2 = 0 ∧ i + 1 < files.length)))
    ∧ (∀ i, i + 1 = files.length →
      Event.sleep ∉ ((runLoop env files.length files 0).getD i ("", [])).2) := by
  have key : ∀ i, i < files.length →
      (Event.sleep ∈ ((runLoop env files.length files 0).getD i ("", [])).2 ↔
        ((i + 1) % 2 = 0 ∧ i + 1 < files.length)) := by
    intro i hi
    have := runLoop_sleep_iff env files.length files 0 i hall hi
    simpa using this
  refine ⟨key, fun i hi => ?_⟩
  intro hmem
  have := (key i (by omega)).mp hmem
  omega

/-- Witness for C2 (amended): with 3 files, none skipped, the delay fires
after the second file and not after the third (last) one. -/
theorem rate_limit_delay_witness :
    Event.sleep ∈ ((runLoop stubEnv 3 ["a.py", "b.py", "c.py"] 0).getD 1 ("", [])).2
    ∧ Event.sleep ∉ ((runLoop stubEnv 3 ["a.py", "b.py", "c.py"] 0).getD 2 ("", [])).2 :=
  ⟨((rate_limit_delay_every_two_processed_files stubEnv ["a.py", "b.py", "c.py"]
      (by decide)).1 1 (by decide)).mpr (by decide),
   (rate_limit_delay_every_two_processed_files stubEnv ["a.py", "b.py", "c.py"]
      (by decide)).2 2 (by decide)⟩

/-- C5: On a `TimeoutExpired`, each runner returns an error string saying the
tool timed out — as an ordinary return value, never as an exception (the
runners are total functions) — and the enforced timeouts are 30s for flake8
and 60s for eslint, stylelint and html-validate; the batch loop still emits
one entry per file, so subsequent files are processed regardless. -/
theorem analyzer_timeouts_yield_error_outcome (sub : Invocation → SubprocResult)
    (p : String) :
    (pyEndsWith p ".py" = true → sub (flake8Invocation p) = SubprocResult.timeoutExpired →
      (run_flake8 sub p).1 = "Error: Flake8 timed out.")
    ∧ (flake8Invocation p).timeout = 30
    ∧ (eslintExtOk p = true → sub (eslintInvocation p) = SubprocResult.timeoutExpired →
      (run_eslint sub p).1 = "Error: ESLint timed out.")
    ∧ (eslintInvocation p).timeout = 60
    ∧ (stylelintExtOk p = true → sub (stylelintInvocation p) = SubprocResult.timeoutExpired →
      (run_stylelint sub p).1 = "Error: Stylelint timed out.")
    ∧ (stylelintInvocation p).timeout = 60
    ∧ (pyEndsWith p ".html" = true → sub (htmlValidateInvocation p) = SubprocResult.timeoutExpired →
      (run_html_validate sub p).1 = "Error: HTML validation timed out.")
    ∧ (htmlValidateInvocation p).timeout = 60
    ∧ (∀ env files count total, (runLoop env total files count).length = files.length) := by
  refine ⟨?_, rfl, ?_, rfl, ?_, rfl, ?_, rfl,
    fun env files count total => runLoop_length env total files count⟩
  · intro hext ht
    unfold run_flake8
    rw [if_neg (by simp [hext])]
    simp [ht]
  · intro hext ht
    unfold run_eslint
    rw [if_neg (by simp [hext])]
    simp [ht]
  · intro hext ht
    unfold run_stylelint
    rw [if_neg (by simp [hext])]
    simp [ht]
  · intro hext ht
    unfold run_html_validate
    rw [if_neg (by simp [hext])]
    simp [ht]

/-- Witness for C5: all four runners, each on a matching file with a
timing-out subprocess, return their timed-out error text. -/
theorem analyzer_timeouts_witness :
    (run_flake8 timeoutSub "a.py").1 = "Error: Flake8 timed out."
    ∧ (run_eslint timeoutSub "a.js").1 = "Error: ESLint timed out."
    ∧ (run_stylelint timeoutSub "a.css").1 = "Error: Stylelint timed out."
    ∧ (run_html_validate timeoutSub "a.html").1 = "Error: HTML validation timed out." :=
  ⟨(analyzer_timeouts_yield_error_outcome timeoutSub "a.py").1 (by decide) rfl,
   (analyzer_timeouts_yield_error_outcome timeoutSub "a.js").2.2.1 (by decide) rfl,
   (analyzer_timeouts_yield_error_outcome timeoutSub "a.css").2.2.2.2.1 (by decide) rfl,
   (analyzer_timeouts_yield_error_outcome timeoutSub "a.html").2.2.2.2.2.2.1 (by decide) rfl⟩

/-- C6 counterexample: an extension mismatch does *not* fail fast — it is
returned as a perfectly ordinary outcome on the same channel as findings.
`run_flake8` on `notes.txt` returns the error-message string as its normal
result (making no subprocess call), exactly like the normal-outcome shape it
returns on `ok.py`; there is no exception path. -/
theorem extension_mismatch_failfast_cex :
    run_flake8 quietSub "notes.txt" =
      ("Error: run_flake8 can only be used on .py files.", [])
    ∧ run_flake8 quietSub "ok.py" =
      ("Flake8 (Python) findings:\nNo issues found.", [flake8Invocation "ok.py"]) := by
  refine ⟨by decide, by decide⟩

/-- C6 (amended): each runner checks the file extension against its declared
set before invoking anything; on mismatch it returns the error-message string
as an ordinary outcome with no subprocess invoked (rather than raising). -/
theorem extension_mismatch_returns_error_outcome (sub : Invocation → SubprocResult)
    (p : String) :
    (pyEndsWith p ".py" = false →
      run_flake8 sub p = ("Error: run_flake8 can only be used on .py files.", []))
    ∧ (eslintExtOk p = false →
      run_eslint sub p = ("Error: run_eslint is for .js, .jsx, .ts, or .tsx files.", []))
    ∧ (stylelintExtOk p = false →
      run_stylelint sub p = ("Error: run_stylelint is for .css or .scss files.", []))
    ∧ (pyEndsWith p ".html" = false →
      run_html_validate sub p = ("Error: run_html_validate is for .html files.", [])) := by
  refine ⟨?_, ?_, ?_, ?_⟩
  · intro hext
    unfold run_flake8
    rw [if_pos (by simp [hext])]
  · intro hext
    unfold run_eslint
    rw [if_pos (by simp [hext])]
  · intro hext
    unfold run_stylelint
    rw [if_pos (by simp [hext])]
  · intro hext
    unfold run_html_validate
    rw [if_pos (by simp [hext])]

/-- Witness for C6 (amended): all four runners reject `README.md` with their
respective error strings and no invocation. -/
theorem extension_mismatch_witness :
    run_flake8 quietSub "README.md" =
      ("Error: run_flake8 can only be used on .py files.", [])
    ∧ run_eslint quietSub "README.md" =
      ("Error: run_eslint is for .js, .jsx, .ts, or .tsx files.", [])
    ∧ run_stylelint quietSub "README.md" =
      ("Error: run_stylelint is for .css or .scss files.", [])
    ∧ run_html_validate quietSub "README.md" =
      ("Error: run_html_validate is for .html files.", []) :=
  ⟨(extension_mismatch_returns_error_outcome quietSub "README.md").1 (by decide),
   (extension_mismatch_returns_error_outcome quietSub "README.md").2.1 (by decide),
   (extension_mismatch_returns_error_outcome quietSub "README.md").2.2.1 (by decide),
   (extension_mismatch_returns_error_outcome quietSub "README.md").2.2.2 (by decide)⟩

/-- C7: With any required configuration value missing (Python-falsy), `main`
exits with code 1 before any analysis (no report, no trace); with valid
configuration and an empty changed-file list it exits with code 0 and
produces neither a report nor a notification. -/
theorem exit_codes_for_config_and_empty_list (cfg : Config) (files : List String)
    (env : Env) :
    (validate_environment cfg = false →
      main cfg files env = MainResult.exitConfig
      ∧ exitCodeOf (main cfg files env) = 1
      ∧ reportOf (main cfg files env) = none
      ∧ traceOf (main cfg files env) = [])
    ∧ (validate_environment cfg = true → files = [] →
      main cfg files env = MainResult.exitNoFiles
      ∧ exitCodeOf (main cfg files env) = 0
      ∧ reportOf (main cfg files env) = none
      ∧ notificationReached (main cfg files env) = false) := by
  constructor
  · intro hv
    have hm : main cfg files env = MainResult.exitConfig := by
      unfold main
      rw [if_pos hv]
    exact ⟨hm, by rw [hm]; rfl, by rw [hm]; rfl, by rw [hm]; rfl⟩
  · intro hv hf
    have hm : main cfg files env = MainResult.exitNoFiles := by
      unfold main
      rw [if_neg (by simp [hv]), if_pos (by simp [hf])]
    exact ⟨hm, by rw [hm]; rfl, by rw [hm]; rfl, by rw [hm]; rfl⟩

/-- Witness for C7: a fully missing configuration exits 1; a valid
configuration with no changed files exits 0 with no report or notification. -/
theorem exit_codes_witness :
    main cfgMissing ["a.py"] stubEnv = MainResult.exitConfig
    ∧ exitCodeOf (main cfgMissing ["a.py"] stubEnv) = 1
    ∧ main cfgOk [] stubEnv = MainResult.exitNoFiles
    ∧ exitCodeOf (main cfgOk [] stubEnv) = 0
    ∧ reportOf (main cfgOk [] stubEnv) = none
    ∧ notificationReached (main cfgOk [] stubEnv) = false :=
  ⟨((exit_codes_for_config_and_empty_list cfgMissing ["a.py"] stubEnv).1 rfl).1,
   ((exit_codes_for_config_and_empty_list cfgMissing ["a.py"] stubEnv).1 rfl).2.1,
   ((exit_codes_for_config_and_empty_list cfgOk [] stubEnv).2 rfl rfl).1,
   ((exit_codes_for_config_and_empty_list cfgOk [] stubEnv).2 rfl rfl).2.1,
   ((exit_codes_for_config_and_empty_list cfgOk [] stubEnv).2 rfl rfl).2.2.1,
   ((exit_codes_for_config_and_empty_list cfgOk [] stubEnv).2 rfl rfl).2.2.2⟩

/-- The claim's own reading of "extension": the suffix of the file name
starting at its last dot, leading dot included, case-sensitive.  Stated from
the spec's words, to compare against the source's `splitextExt`. -/
def specClaimedExt (p : String) : String :=
  String.mk (suffixFromLastDot (basenameChars p.toList))

/-- C8 counterexample: for a changed file named exactly `.py` (non-empty,
passing every gate), the claim's extension rule gives `".py"`, which is in
the language map, so the claim demands a review-turn call — but
`os.path.splitext` treats a bare dotfile as having no extension, and the code
makes no review call for it (the dispatch turn still runs). -/
theorem review_extension_rule_cex :
    specClaimedExt ".py" = ".py"
    ∧ (language_map.lookup (specClaimedExt ".py")).isSome = true
    ∧ (stepFile stubEnv ".py").processed = true
    ∧ Event.dispatchCall ".py" ∈ (stepFile stubEnv ".py").events
    ∧ Event.reviewCall ".py" ∉ (stepFile stubEnv ".py").events := by
  refine ⟨by decide, by decide, by decide, by decide, by decide⟩

/-- C8 (amended): for every file that passes the size, emptiness and
readability gates, the dispatch turn is always invoked, and the review turn
is invoked iff the file's `os.path.splitext` extension (the suffix from the
last dot of the final path component, case-sensitive, leading dot included —
except that a dot leading the component starts no extension) is a key of the
language map, whose keys are exactly
`.py .js .jsx .ts .tsx .css .scss .html`. -/
theorem review_turn_iff_splitext_in_language_map (env : Env) (p : String) (c : String)
    (hopen : sizeGateOpen env p) (hread : env.readFile p = ReadResult.ok c)
    (hne : strippedEmpty c = false) :
    Event.dispatchCall p ∈ (stepFile env p).events
    ∧ (Event.reviewCall p ∈ (stepFile env p).events ↔
        (language_map.lookup (splitextExt p)).isSome = true)
    ∧ language_map.map Prod.fst =
        [".py", ".js", ".jsx", ".ts", ".tsx", ".css", ".scss", ".html"] := by
  have hev : (stepFile env p).events =
      (if (language_map.lookup (splitextExt p)).isSome = true
       then [Event.dispatchCall p, Event.reviewCall p]
       else [Event.dispatchCall p]) := by
    show (fileBody env p).events = _
    rw [fileBody_gate_open env p hopen]
    exact (readAndReview_processed env p c hread hne).2.1
  refine ⟨?_, ?_, by decide⟩
  · rw [hev]
    by_cases hl : (language_map.lookup (splitextExt p)).isSome = true
    · simp [hl]
    · simp only [Bool.not_eq_true] at hl
      simp [hl]
  · rw [hev]
    by_cases hl : (language_map.lookup (splitextExt p)).isSome = true
    · simp [hl]
    · simp only [Bool.not_eq_true] at hl
      simp [hl]

/-- Witness for C8 (amended): `a.py` gets both the dispatch and the review
turn; `notes.txt` gets the dispatch turn but no review turn. -/
theorem review_turn_witness :
    Event.dispatchCall "a.py" ∈ (stepFile stubEnv "a.py").events
    ∧ Event.reviewCall "a.py" ∈ (stepFile stubEnv "a.py").events
    ∧ Event.dispatchCall "notes.txt" ∈ (stepFile stubEnv "notes.txt").events
    ∧ Event.reviewCall "notes.txt" ∉ (stepFile stubEnv "notes.txt").events :=
  ⟨(review_turn_iff_splitext_in_language_map stubEnv "a.py" "x = 1\n"
      (Or.inr ⟨10, rfl, by decide⟩) rfl (by decide)).1,
   (review_turn_iff_splitext_in_language_map stubEnv "a.py" "x = 1\n"
      (Or.inr ⟨10, rfl, by decide⟩) rfl (by decide)).2.1.mpr (by decide),
   (review_turn_iff_splitext_in_language_map stubEnv "notes.txt" "x = 1\n"
      (Or.inr ⟨10, rfl, by decide⟩) rfl (by decide)).1,
   fun hmem =>
     absurd ((review_turn_iff_splitext_in_language_map stubEnv "notes.txt" "x = 1\n"
       (Or.inr ⟨10, rfl, by decide⟩) rfl (by decide)).2.1.mp hmem) (by decide)⟩

/-- C9: The orchestrator is a deterministic function of its inputs and its
collaborators' responses — two runs over the same file list against
collaborators that answer every query identically produce identical
`MainResult`s, hence byte-identical report text. -/
theorem orchestrator_deterministic_in_collaborators (cfg : Config)
    (files : List String) (e1 e2 : Env)
    (hg : ∀ p, e1.getsize p = e2.getsize p)
    (hr : ∀ p, e1.readFile p = e2.readFile p)
    (hd : ∀ m, e1.dispatchChat m = e2.dispatchChat m)
    (hv : ∀ m, e1.reviewChat m = e2.reviewChat m) :
    main cfg files e1 = main cfg files e2 := by
  have he : e1 = e2 := by
    cases e1
    cases e2
    simp only [Env.mk.injEq]
    exact ⟨funext hg, funext hr, funext hd, funext hv⟩
  rw [he]

/-- Witness for C9: two syntactically different but pointwise-equal stub
environments yield the same run result. -/
theorem orchestrator_deterministic_witness :
    main cfgOk ["a.py", "style.css"] stubEnv = main cfgOk ["a.py", "style.css"] stubEnvSame :=
  orchestrator_deterministic_in_collaborators cfgOk ["a.py", "style.css"]
    stubEnv stubEnvSame (fun _ => rfl) (fun _ => rfl) (fun _ => rfl) (fun _ => rfl)

end AutogenReview
